import Mathlib

/-!
Verification of the Market-Screener trading core (src/screener/alerts.py,
src/screener/backtester.py, src/technical_indicators.py) against its
natural-language specification.

Modelling conventions:
- Prices and indicator values are rationals; a possibly-NaN indicator value
  (pandas warm-up) is an Option, with none standing for NaN.
- External collaborators (indicator engine, pattern scanner, breakout
  detector) are inputs: signal strings, a pattern list of
  (name, polarity) pairs, and boolean breakout flags, exactly the values
  the Python code reads from them.
- The Python round(x, 2) presentation step on output prices and returns is
  omitted: all derived levels and returns are kept exact.
- Python string membership (needle in hay) is modelled by strContains.
-/

namespace MarketScreener

/-- Python substring membership test, needle in hay, on strings. -/
def strContains (hay needle : String) : Bool :=
  decide (needle.toList <:+: hay.toList)

/-! Configuration constants from src/screener/config.py. -/

def ENTRY_EMA_PULLBACK_PCT : ℚ := 2
def ENTRY_ADX_MIN : ℚ := 25
def ENTRY_VOLUME_RATIO_PREFERRED : ℚ := 3/2

/-- Final-bar snapshot of the enriched dataframe, as read by the entry
checks: OHLC of the last bar plus the indicator columns they access.
Optional fields model NaN warm-up values. -/
structure Snapshot where
  open_ : ℚ
  high : ℚ
  low : ℚ
  close : ℚ
  ema20 : Option ℚ
  ema50 : Option ℚ
  ema200 : Option ℚ
  adx : Option ℚ
  volRatio : Option ℚ
  atr : Option ℚ
deriving DecidableEq

/-- Names of the bullish patterns in a scan_all_patterns result. -/
def bullPatternsOf (patterns : List (String × String)) : List String :=
  (patterns.filter (fun p => p.2 == "bullish")).map (fun p => p.1)

/-- Names of the bearish patterns in a scan_all_patterns result. -/
def bearPatternsOf (patterns : List (String × String)) : List String :=
  (patterns.filter (fun p => p.2 == "bearish")).map (fun p => p.1)

/-- Entry-signal record (alerts.py dict); the textual condition lists are
replaced by their lengths (metCount, missingCount) and the details dict is
omitted, since only counts matter to the logic. -/
structure EntrySignal where
  hasSignal : Bool
  strategy : String
  direction : String
  strength : String
  metCount : Nat
  missingCount : Nat
  entryPrice : ℚ
  ema20 : ℚ
  stopLoss : ℚ
  target1 : ℚ
  target2 : ℚ
  riskPct : ℚ
  pullbackPct : ℚ
deriving DecidableEq

/-- The NO_SIGNAL sentinel of alerts.py. -/
def noSignal : EntrySignal :=
  { hasSignal := false, strategy := "", direction := "", strength := "None",
    metCount := 0, missingCount := 0, entryPrice := 0, ema20 := 0,
    stopLoss := 0, target1 := 0, target2 := 0, riskPct := 0, pullbackPct := 0 }

/-! Bullish trend-following entry conditions
    (alerts.py, check_trend_following_entry). -/

/-- Condition 1 (required): close > EMA20 > EMA50 > EMA200. -/
def bullEmaAligned (s : Snapshot) : Bool :=
  match s.ema20, s.ema50, s.ema200 with
  | some e20, some e50, some e200 =>
      decide (s.close > e20) && decide (e20 > e50) && decide (e50 > e200)
  | _, _, _ => false

/-- Condition 2 (required): pullback to EMA20, either close within the
configured percentage band above EMA20 or the low touched EMA20 while the
close stayed above. -/
def bullPullbackOk (s : Snapshot) : Bool :=
  match s.ema20 with
  | some e20 =>
      let pb := (s.close - e20) / e20 * 100
      (decide (0 ≤ pb) && decide (pb ≤ ENTRY_EMA_PULLBACK_PCT)) ||
      (decide (s.low ≤ e20) && decide (e20 ≤ s.close))
  | none => false

/-- Body size of the last candle as a percentage of its range, 0 on a
zero-range candle. -/
def bodyPct (s : Snapshot) : ℚ :=
  let range := s.high - s.low
  if 0 < range then |s.close - s.open_| / range * 100 else 0

/-- Condition 3 (confirmation): green candle with body above 40 percent of
range, or any bullish candlestick pattern. -/
def bullCandleOk (s : Snapshot) (patterns : List (String × String)) : Bool :=
  (decide (s.close ≥ s.open_) && decide (bodyPct s > 40)) ||
  !(bullPatternsOf patterns).isEmpty

/-- Condition 4 (confirmation): volume ratio at or above the preferred
threshold; NaN fails. -/
def volumeOk (s : Snapshot) : Bool :=
  match s.volRatio with
  | some v => decide (v ≥ ENTRY_VOLUME_RATIO_PREFERRED)
  | none => false

/-- Condition 5 (confirmation): ADX at or above the minimum; NaN fails. -/
def adxOk (s : Snapshot) : Bool :=
  match s.adx with
  | some a => decide (a ≥ ENTRY_ADX_MIN)
  | none => false

/-- Number of satisfied conditions among the five bullish entry conditions
(length of the conditions_met list: each condition contributes exactly one
entry when satisfied). -/
def metCountBull (s : Snapshot) (patterns : List (String × String)) : Nat :=
  (if bullEmaAligned s then 1 else 0) +
  (if bullPullbackOk s then 1 else 0) +
  (if bullCandleOk s patterns then 1 else 0) +
  (if volumeOk s then 1 else 0) +
  (if adxOk s then 1 else 0)

/-- Bullish trend-following entry check
(alerts.py, check_trend_following_entry). -/
def checkTrendFollowingEntry (s : Snapshot)
    (patterns : List (String × String)) : EntrySignal :=
  match s.ema20, s.ema50, s.ema200 with
  | some e20, some _e50, some _e200 =>
    if e20 ≤ 0 then { noSignal with strategy := "Trend Following" }
    else
      let metCount := metCountBull s patterns
      let hasSignal := bullEmaAligned s && bullPullbackOk s &&
        decide (metCount ≥ 3)
      let strength :=
        if metCount ≥ 4 then "Strong"
        else if metCount ≥ 3 then "Moderate"
        else "Weak"
      let stopAtr :=
        match s.atr with
        | some a => if 0 < a then s.close - 3/2 * a else s.close * (97/100)
        | none => s.close * (97/100)
      let stopLoss := min stopAtr s.low
      let risk := s.close - stopLoss
      let riskPct := if 0 < s.close then risk / s.close * 100 else 0
      { hasSignal := hasSignal, strategy := "Trend Following",
        direction := "Bullish", strength := strength,
        metCount := metCount, missingCount := 5 - metCount,
        entryPrice := s.close, ema20 := e20, stopLoss := stopLoss,
        target1 := s.close + 2 * risk, target2 := s.close + 3 * risk,
        riskPct := riskPct, pullbackPct := (s.close - e20) / e20 * 100 }
  | _, _, _ => { noSignal with strategy := "Trend Following" }

/-! Bearish trend-following entry conditions
    (alerts.py, check_bearish_trend_following_entry). -/

/-- Condition 1 (required, bearish): EMA200 > EMA50 > EMA20 > close. -/
def bearEmaAligned (s : Snapshot) : Bool :=
  match s.ema20, s.ema50, s.ema200 with
  | some e20, some e50, some e200 =>
      decide (e200 > e50) && decide (e50 > e20) && decide (e20 > s.close)
  | _, _, _ => false

/-- Condition 2 (required, bearish): rally to EMA20 from below, either the
close within the band below EMA20 or the high touched EMA20 while the close
stayed below. -/
def bearPullbackOk (s : Snapshot) : Bool :=
  match s.ema20 with
  | some e20 =>
      let pb := (e20 - s.close) / e20 * 100
      (decide (0 ≤ pb) && decide (pb ≤ ENTRY_EMA_PULLBACK_PCT)) ||
      (decide (s.close ≤ e20) && decide (e20 ≤ s.high))
  | none => false

/-- Condition 3 (confirmation, bearish): red candle with body above 40
percent of range, or any bearish pattern. -/
def bearCandleOk (s : Snapshot) (patterns : List (String × String)) : Bool :=
  (decide (s.close < s.open_) && decide (bodyPct s > 40)) ||
  !(bearPatternsOf patterns).isEmpty

/-- Number of satisfied conditions among the five bearish entry
conditions. -/
def metCountBear (s : Snapshot) (patterns : List (String × String)) : Nat :=
  (if bearEmaAligned s then 1 else 0) +
  (if bearPullbackOk s then 1 else 0) +
  (if bearCandleOk s patterns then 1 else 0) +
  (if volumeOk s then 1 else 0) +
  (if adxOk s then 1 else 0)

/-- Bearish trend-following entry check
(alerts.py, check_bearish_trend_following_entry). -/
def checkBearishTrendFollowingEntry (s : Snapshot)
    (patterns : List (String × String)) : EntrySignal :=
  match s.ema20, s.ema50, s.ema200 with
  | some e20, some _e50, some _e200 =>
    if e20 ≤ 0 then
      { noSignal with strategy := "Trend Following", direction := "Bearish" }
    else
      let metCount := metCountBear s patterns
      let hasSignal := bearEmaAligned s && bearPullbackOk s &&
        decide (metCount ≥ 3)
      let strength :=
        if metCount ≥ 4 then "Strong"
        else if metCount ≥ 3 then "Moderate"
        else "Weak"
      let stopAtr :=
        match s.atr with
        | some a => if 0 < a then s.close + 3/2 * a else s.close * (103/100)
        | none => s.close * (103/100)
      let stopLoss := max stopAtr s.high
      let risk := stopLoss - s.close
      let riskPct := if 0 < s.close then risk / s.close * 100 else 0
      { hasSignal := hasSignal, strategy := "Trend Following",
        direction := "Bearish", strength := strength,
        metCount := metCount, missingCount := 5 - metCount,
        entryPrice := s.close, ema20 := e20, stopLoss := stopLoss,
        target1 := s.close - 2 * risk, target2 := s.close - 3 * risk,
        riskPct := riskPct, pullbackPct := (e20 - s.close) / e20 * 100 }
  | _, _, _ =>
      { noSignal with strategy := "Trend Following", direction := "Bearish" }

/-- Entry-signal detection (alerts.py, detect_entry_signal): returns the
list of firing signals for the requested strategy; empty when the history
has fewer than 50 bars or the strategy is unknown. The nbars argument is
the history length, and s and patterns are what the indicator engine and
pattern scanner produce on that history. -/
def detectEntrySignal (nbars : Nat) (s : Snapshot)
    (patterns : List (String × String)) (strategy : String) :
    List EntrySignal :=
  if nbars < 50 then []
  else if strategy == "trend_following" then
    let bull := checkTrendFollowingEntry s patterns
    let bear := checkBearishTrendFollowingEntry s patterns
    (if bull.hasSignal then [bull] else []) ++
    (if bear.hasSignal then [bear] else [])
  else []

/-! Scorer (alerts.py, score_stock). The collaborator outputs that the
scorer reads are collected in ScoreInput: the numeric RSI of the last bar,
the generate_signals strings, the pattern scan, and the breakout flags. -/

/-- Signal strings returned by generate_signals; a key that is absent from
the Python dict is the empty string (the dict .get default). -/
structure SignalDict where
  rsi : String
  macd : String
  emaTrend : String
  bb : String
  adx : String
  volume : String
deriving DecidableEq

/-- Inputs that score_stock reads from its collaborators. -/
structure ScoreInput where
  rsi : Option ℚ
  signals : SignalDict
  patterns : List (String × String)
  isBreakout : Bool
  isBreakdown : Bool
deriving DecidableEq

/-- Scorer output (the criteria list, raw signals and candle-close fields
are presentation data and carry no further logic). -/
structure ScoreResult where
  bullishScore : Nat
  bearishScore : Nat
deriving DecidableEq

/-- Partial totals after the first five criterion families, evaluated in
source order: RSI, MACD, EMA trend, Bollinger, ADX. -/
def score5 (inp : ScoreInput) : Nat × Nat :=
  let st : Nat × Nat := (0, 0)
  let st :=
    match inp.rsi with
    | some v =>
        if v < 30 then (st.1 + 1, st.2)
        else if v > 70 then (st.1, st.2 + 1)
        else st
    | none => st
  let st :=
    if strContains inp.signals.macd "Bullish" then (st.1 + 1, st.2)
    else if strContains inp.signals.macd "Bearish" then (st.1, st.2 + 1)
    else st
  let st :=
    if strContains inp.signals.emaTrend "Bullish" then (st.1 + 1, st.2)
    else if strContains inp.signals.emaTrend "Bearish" then (st.1, st.2 + 1)
    else st
  let st :=
    if strContains inp.signals.bb "Lower" then (st.1 + 1, st.2)
    else if strContains inp.signals.bb "Upper" then (st.1, st.2 + 1)
    else st
  let st :=
    if strContains inp.signals.adx "Strong Bullish" then (st.1 + 1, st.2)
    else if strContains inp.signals.adx "Strong Bearish" then (st.1, st.2 + 1)
    else st
  st

/-- The scorer (alerts.py, score_stock): five criterion families, then the
volume criterion credited to the currently leading side, then breakout or
breakdown (+2, mutually exclusive), then candlestick patterns (up to +2 per
side). -/
def scoreStock (inp : ScoreInput) : ScoreResult :=
  let st := score5 inp
  let st :=
    if strContains inp.signals.volume "High" then
      if st.1 > st.2 then (st.1 + 1, st.2)
      else if st.2 > st.1 then (st.1, st.2 + 1)
      else st
    else st
  let st :=
    if inp.isBreakout then (st.1 + 2, st.2)
    else if inp.isBreakdown then (st.1, st.2 + 2)
    else st
  let bullPats := bullPatternsOf inp.patterns
  let bearPats := bearPatternsOf inp.patterns
  let st := if bullPats.isEmpty then st else (st.1 + min bullPats.length 2, st.2)
  let st := if bearPats.isEmpty then st else (st.1, st.2 + min bearPats.length 2)
  { bullishScore := st.1, bearishScore := st.2 }

/-! ComboRecommender (alerts.py, recommend_combo). -/

/-- Reversal pattern name set (alerts.py, REVERSAL_PATTERNS). -/
def REVERSAL_PATTERNS : List String :=
  ["Hammer", "Morning Star", "Morning Doji Star", "Engulfing Pattern",
   "Piercing Pattern", "Three Advancing White Soldiers", "Inverted Hammer",
   "Abandoned Baby"]

/-- Combo recommendation output (the reason string is presentation and is
omitted). -/
structure ComboRecommendation where
  combo : String
  matchScore : Nat
deriving DecidableEq

/-- Checklist score of the Trend Following archetype. -/
def scoreTrendFollowing (signals : SignalDict)
    (patterns : List (String × String)) : Nat :=
  (if strContains signals.emaTrend "Bullish" then 1 else 0) +
  (if strContains signals.adx "Strong Bullish" then 1 else 0) +
  (if strContains signals.volume "High" then 1 else 0) +
  (if (bullPatternsOf patterns).isEmpty then 0 else 1)

/-- Checklist score of the Mean Reversion archetype. -/
def scoreMeanReversion (signals : SignalDict)
    (patterns : List (String × String)) : Nat :=
  let hasReversal := (bullPatternsOf patterns).any
    (fun p => REVERSAL_PATTERNS.contains p)
  (if strContains signals.rsi "Oversold" then 1 else 0) +
  (if strContains signals.bb "Lower" then 1 else 0) +
  (if hasReversal then 1 else 0) +
  (if strContains signals.rsi "Oversold" && strContains signals.bb "Lower"
   then 1 else 0)

/-- Checklist score of the Breakout archetype. -/
def scoreBreakout (signals : SignalDict) (isBreakout : Bool) : Nat :=
  (if isBreakout then 2 else 0) +
  (if strContains signals.volume "High" then 1 else 0) +
  (if strContains signals.macd "Bullish" then 1 else 0) +
  (if !strContains signals.adx "Weak" && signals.adx ≠ "" then 1 else 0)

/-- Checklist score of the Sell/Short archetype. -/
def scoreSellShort (signals : SignalDict)
    (patterns : List (String × String)) : Nat :=
  (if strContains signals.rsi "Overbought" then 1 else 0) +
  (if strContains signals.bb "Upper" then 1 else 0) +
  (if (bearPatternsOf patterns).isEmpty then 0 else 1) +
  (if strContains signals.emaTrend "Bearish" then 1 else 0)

/-- ComboRecommender (alerts.py, recommend_combo): the four archetype
checklists are scored and the Python max over the insertion-ordered dict
keeps the first key attaining the maximum, which the if-chain below
reproduces; a winning score below 2 yields No clear setup. The criteria
argument of the Python function is unused there and is omitted. -/
def recommendCombo (signals : SignalDict) (patterns : List (String × String))
    (isBreakout : Bool) (_isBreakdown : Bool) : ComboRecommendation :=
  let sTF := scoreTrendFollowing signals patterns
  let sMR := scoreMeanReversion signals patterns
  let sBO := scoreBreakout signals isBreakout
  let sSS := scoreSellShort signals patterns
  let best :=
    if sTF ≥ sMR ∧ sTF ≥ sBO ∧ sTF ≥ sSS then ("Trend Following", sTF)
    else if sMR ≥ sBO ∧ sMR ≥ sSS then ("Mean Reversion", sMR)
    else if sBO ≥ sSS then ("Breakout", sBO)
    else ("Sell/Short", sSS)
  if best.2 < 2 then { combo := "No clear setup", matchScore := best.2 }
  else { combo := best.1, matchScore := best.2 }

/-! Alert generation loop (alerts.py, generate_alerts): rows are emitted
only for symbols with at least 50 bars whose maximum score reaches
min_score. Relative strength, the candle-close columns and the final
score-descending sort are presentation and are omitted; the emitted row
keeps the fields the loop computes from the scorer and recommender. -/

/-- Per-symbol input to the alert loop: history length plus the
collaborator outputs the scorer and recommender read. -/
structure AlertStockInput where
  symbol : String
  nbars : Nat
  scoreInput : ScoreInput
deriving DecidableEq

/-- One emitted alert row. -/
structure AlertRow where
  symbol : String
  direction : String
  score : Nat
  combo : String
deriving DecidableEq

/-- Alert generation (alerts.py, generate_alerts), modulo presentation. -/
def generateAlertsRows : List AlertStockInput → Nat → List AlertRow
  | [], _ => []
  | stk :: rest, minScore =>
    let tail := generateAlertsRows rest minScore
    if stk.nbars < 50 then tail
    else
      let result := scoreStock stk.scoreInput
      let maxScore := max result.bullishScore result.bearishScore
      if maxScore < minScore then tail
      else
        let direction :=
          if result.bullishScore ≥ result.bearishScore then "Bullish"
          else "Bearish"
        let comboRec := recommendCombo stk.scoreInput.signals
          stk.scoreInput.patterns stk.scoreInput.isBreakout
          stk.scoreInput.isBreakdown
        { symbol := stk.symbol, direction := direction,
          score := maxScore, combo := comboRec.combo } :: tail

/-! Backtest engine (src/screener/backtester.py). -/

/-- Collaborator outputs that detect_combo_signal reads on one window:
the generate_signals strings, the pattern scan, the last ADX value of the
enriched frame, and the breakout detector flag. -/
structure ComboInputs where
  signals : SignalDict
  patterns : List (String × String)
  adx : Option ℚ
  breakingOut : Bool
deriving DecidableEq

/-- Per-window archetype predicate (backtester.py, detect_combo_signal).
The nbars argument is the window length; the inputs argument is the result
of running the collaborators on the window, with error standing for any
exception raised inside the try block, which the function swallows,
returning false. -/
def detectComboSignal (nbars : Nat) (inputs : Except Unit ComboInputs)
    (combo : String) : Bool :=
  if nbars < 50 then false
  else
    match inputs with
    | .error _ => false
    | .ok c =>
      let adxBig :=
        match c.adx with
        | some v => decide (v > 25)
        | none => false
      if combo == "Trend Following" then
        strContains c.signals.emaTrend "Bullish" && adxBig &&
        strContains c.signals.volume "High" &&
        !(bullPatternsOf c.patterns).isEmpty
      else if combo == "Mean Reversion" then
        strContains c.signals.rsi "Oversold" &&
        strContains c.signals.bb "Lower" &&
        (bullPatternsOf c.patterns).any (fun p => REVERSAL_PATTERNS.contains p)
      else if combo == "Breakout" then
        c.breakingOut && strContains c.signals.volume "High" &&
        strContains c.signals.macd "Bullish"
      else if combo == "Sell/Short" then
        strContains c.signals.rsi "Overbought" &&
        (strContains c.signals.bb "Upper" ||
         !(bearPatternsOf c.patterns).isEmpty)
      else false

/-- One recorded backtest trade; the entry date string is replaced by the
entry index into the close series. -/
structure BTrade where
  idx : Nat
  entryPrice : ℚ
  ret5 : ℚ
  ret10 : ℚ
  ret20 : ℚ
deriving DecidableEq

/-- Backtest result record (backtester.py, backtest_combo). -/
structure BacktestResult where
  combo : String
  symbol : String
  totalSignals : Nat
  winRate5 : ℚ
  winRate10 : ℚ
  winRate20 : ℚ
  avgReturn5 : ℚ
  avgReturn10 : ℚ
  avgReturn20 : ℚ
  trades : List BTrade
deriving DecidableEq

/-- The explicit zero-valued result returned on insufficient history or
zero recorded trades. -/
def emptyResult (combo symbol : String) : BacktestResult :=
  { combo := combo, symbol := symbol, totalSignals := 0,
    winRate5 := 0, winRate10 := 0, winRate20 := 0,
    avgReturn5 := 0, avgReturn10 := 0, avgReturn20 := 0, trades := [] }

/-- Percentage change from the close at index i to the close n bars later,
clipped to the last available bar. -/
def fwdReturn (closes : List ℚ) (i n : Nat) : ℚ :=
  let entry := closes.getD i 0
  (closes.getD (min (i + n) (closes.length - 1)) 0 - entry) / entry * 100

/-- Record one trade at scan index i; neg inverts the three returns (the
Sell/Short combo profits from decline). -/
def mkTrade (closes : List ℚ) (neg : Bool) (i : Nat) : BTrade :=
  let r5 := fwdReturn closes i 5
  let r10 := fwdReturn closes i 10
  let r20 := fwdReturn closes i 20
  { idx := i, entryPrice := closes.getD i 0,
    ret5 := if neg then -r5 else r5,
    ret10 := if neg then -r10 else r10,
    ret20 := if neg then -r20 else r20 }

/-- Walk-forward scan over the given index list carrying the skip_until
cursor: indices below the cursor are skipped; on a detection at i the index
is recorded and the cursor advances to i + 5. -/
def scanIndices (sig : Nat → Bool) : List Nat → Nat → List Nat
  | [], _ => []
  | i :: rest, skipUntil =>
    if i < skipUntil then scanIndices sig rest skipUntil
    else if sig i then i :: scanIndices sig rest (i + 5)
    else scanIndices sig rest skipUntil

/-- Backtest of one symbol (backtester.py, backtest_combo). The close
series is the Close column; inputsAt i is what the collaborators produce on
the prefix window of the first i + 1 bars, so the detector at scan index i
sees only bars up to i. -/
def backtestCombo (closes : List ℚ) (symbol combo : String)
    (lookback : Nat) (inputsAt : Nat → Except Unit ComboInputs) :
    BacktestResult :=
  if closes.length < 70 then emptyResult combo symbol
  else
    let endIdx := closes.length - 20
    let startIdx := max 50 (endIdx - lookback)
    let sig := fun i => detectComboSignal (i + 1) (inputsAt i) combo
    let idxs := scanIndices sig (List.range' startIdx (endIdx - startIdx)) 0
    let trades := idxs.map (mkTrade closes (combo == "Sell/Short"))
    if trades.isEmpty then emptyResult combo symbol
    else
      let n := trades.length
      let r5 := trades.map (fun t => t.ret5)
      let r10 := trades.map (fun t => t.ret10)
      let r20 := trades.map (fun t => t.ret20)
      { combo := combo, symbol := symbol, totalSignals := n,
        winRate5 := ((r5.countP (fun r => decide (r > 0)) : ℚ) / n) * 100,
        winRate10 := ((r10.countP (fun r => decide (r > 0)) : ℚ) / n) * 100,
        winRate20 := ((r20.countP (fun r => decide (r > 0)) : ℚ) / n) * 100,
        avgReturn5 := r5.sum / n,
        avgReturn10 := r10.sum / n,
        avgReturn20 := r20.sum / n,
        trades := trades }

/-! Concrete inputs used by the witness and counterexample theorems. -/

/-- Synthetic 90-bar close series: 100 everywhere except close 90 at
index 55, five bars after the signal bar 50. -/
def closes90 : List ℚ :=
  (List.range 90).map (fun k => if k = 55 then 90 else 100)

/-- Signal strings that satisfy the Sell/Short checklist. -/
def ssSignals : SignalDict :=
  { rsi := "Overbought (75.0)", macd := "", emaTrend := "",
    bb := "Near Upper Band", adx := "", volume := "" }

/-- Collaborator outputs that satisfy the Sell/Short checklist. -/
def ssInputs : ComboInputs :=
  { signals := ssSignals, patterns := [], adx := none, breakingOut := false }

/-- Prefix-window collaborator function that fires only at scan index
50. -/
def ssInputsAt : Nat → Except Unit ComboInputs :=
  fun i => if i = 50 then Except.ok ssInputs else Except.error ()

/-- Signal strings for the concrete scorer input: oversold RSI, bullish
MACD, high volume. -/
def inp6Signals : SignalDict :=
  { rsi := "Oversold (25.0)", macd := "Bullish Crossover",
    emaTrend := "Mixed", bb := "Mid-Band (50%)",
    adx := "Weak/No Trend (12.0)", volume := "High Volume (2.0x avg)" }

/-- Concrete scorer input: oversold RSI, bullish MACD, high volume, no
patterns and no breakout. -/
def inp6 : ScoreInput :=
  { rsi := some 25, signals := inp6Signals,
    patterns := [], isBreakout := false, isBreakdown := false }

/-- Scorer input attached to a 30-bar history. -/
def shortInput : AlertStockInput :=
  { symbol := "TEST", nbars := 30, scoreInput := inp6 }

/-- Snapshot of a clean bullish pullback bar: aligned EMAs, close at the
2 percent band above EMA20, strong ADX and volume, ATR available. -/
def sW4 : Snapshot :=
  { open_ := 100, high := 103, low := 95, close := 102,
    ema20 := some 100, ema50 := some 95, ema200 := some 90,
    adx := some 30, volRatio := some 2, atr := some 2 }

/-- Snapshot with no ATR whose bar low lies below the 3 percent fallback
stop level. -/
def s4cx : Snapshot :=
  { open_ := 99, high := 101, low := 90, close := 100,
    ema20 := some 95, ema50 := some 90, ema200 := some 85,
    adx := none, volRatio := none, atr := none }

/-! Theorems. -/

/-- Every index recorded by the walk-forward scan is at or above the
cursor value the scan started with. -/
theorem scanIndices_mem_ge (sig : Nat → Bool) :
    ∀ (l : List Nat) (skipUntil j : Nat),
      j ∈ scanIndices sig l skipUntil → skipUntil ≤ j := by
  intro l
  induction l with
  | nil => intro skipUntil j h; simp [scanIndices] at h
  | cons i rest ih =>
    intro skipUntil j h
    simp only [scanIndices] at h
    split at h
    · exact ih skipUntil j h
    · split at h
      · rcases List.mem_cons.mp h with rfl | h2
        · omega
        · have h5 := ih (i + 5) j h2
          omega
      · exact ih skipUntil j h

/-- The walk-forward scan produces indices that pairwise differ by at
least 5. -/
theorem scanIndices_pairwise (sig : Nat → Bool) :
    ∀ (l : List Nat) (skipUntil : Nat),
      (scanIndices sig l skipUntil).Pairwise (fun a b => a + 5 ≤ b) := by
  intro l
  induction l with
  | nil => intro skipUntil; simp [scanIndices]
  | cons i rest ih =>
    intro skipUntil
    simp only [scanIndices]
    split
    · exact ih skipUntil
    · split
      · exact List.Pairwise.cons
          (fun j hj => scanIndices_mem_ge sig rest (i + 5) j hj) (ih (i + 5))
      · exact ih skipUntil

theorem mkTrade_idx (closes : List ℚ) (neg : Bool) (i : Nat) :
    (mkTrade closes neg i).idx = i := rfl

/-- C2: for every history, archetype name, and lookback, any two trades
recorded by the backtest engine have entry indices at least 5 apart: after
recording at index i the cursor advances to i + 5 and lower indices are
skipped. -/
theorem backtest_trades_non_overlapping
    (closes : List ℚ) (symbol combo : String) (lookback : Nat)
    (inputsAt : Nat → Except Unit ComboInputs) :
    ((backtestCombo closes symbol combo lookback inputsAt).trades.map
      (fun t => t.idx)).Pairwise (fun a b => a + 5 ≤ b) := by
  unfold backtestCombo
  split
  · simp [emptyResult]
  · simp only []
    split
    · simp [emptyResult]
    · simp only [List.map_map]
      have :
          ((fun t : BTrade => t.idx) ∘ mkTrade closes (combo == "Sell/Short"))
            = id := by
        funext i
        simp [mkTrade_idx, Function.comp]
      rw [this, List.map_id]
      exact scanIndices_pairwise _ _ _

/-- C5: every trade recorded by a Sell/Short backtest reports each
forward return as the negation of the percentage change from the entry
close to the clipped forward close. -/
theorem sellshort_returns_negated
    (closes : List ℚ) (symbol : String) (lookback : Nat)
    (inputsAt : Nat → Except Unit ComboInputs) (t : BTrade)
    (ht : t ∈ (backtestCombo closes symbol "Sell/Short" lookback
      inputsAt).trades) :
    t.entryPrice = closes.getD t.idx 0 ∧
    t.ret5 = -((closes.getD (min (t.idx + 5) (closes.length - 1)) 0 -
      closes.getD t.idx 0) / closes.getD t.idx 0 * 100) ∧
    t.ret10 = -((closes.getD (min (t.idx + 10) (closes.length - 1)) 0 -
      closes.getD t.idx 0) / closes.getD t.idx 0 * 100) ∧
    t.ret20 = -((closes.getD (min (t.idx + 20) (closes.length - 1)) 0 -
      closes.getD t.idx 0) / closes.getD t.idx 0 * 100) := by
  unfold backtestCombo at ht
  split at ht
  · simp [emptyResult] at ht
  · simp only [] at ht
    split at ht
    · simp [emptyResult] at ht
    · simp only [] at ht
      rcases List.mem_map.mp ht with ⟨i, _, rfl⟩
      simp [mkTrade, fwdReturn]

/-- C5 witness: in the synthetic series the Sell/Short backtest records
the bar-50 trade with entry 100 and close 90 five bars later, and reports
return_5d = +10, the negated percentage change. -/
theorem sellshort_returns_negated_witness :
    mkTrade closes90 true 50 ∈
      (backtestCombo closes90 "SYM" "Sell/Short" 252 ssInputsAt).trades ∧
    (mkTrade closes90 true 50).ret5 =
      -((closes90.getD (min ((mkTrade closes90 true 50).idx + 5)
          (closes90.length - 1)) 0 -
        closes90.getD (mkTrade closes90 true 50).idx 0) /
        closes90.getD (mkTrade closes90 true 50).idx 0 * 100) ∧
    (mkTrade closes90 true 50).entryPrice = 100 ∧
    (mkTrade closes90 true 50).ret5 = 10 := by
  have hlen : closes90.length = 90 := by decide
  have hscan : scanIndices
      (fun i => detectComboSignal (i + 1) (ssInputsAt i) "Sell/Short")
      (List.range' 50 20) 0 = [50] := by decide
  have htr : (backtestCombo closes90 "SYM" "Sell/Short" 252
      ssInputsAt).trades = [mkTrade closes90 true 50] := by
    simp only [backtestCombo, hlen]
    norm_num
    rw [hscan]
    simp
  have hm : mkTrade closes90 true 50 ∈
      (backtestCombo closes90 "SYM" "Sell/Short" 252 ssInputsAt).trades := by
    rw [htr]; exact List.mem_singleton.mpr rfl
  refine ⟨hm,
    (sellshort_returns_negated closes90 "SYM" 252 ssInputsAt _ hm).2.1,
    by decide, ?_⟩
  have h50 : closes90.getD 50 0 = 100 := by decide
  have h55 : closes90[55]? = some 90 := by decide
  simp only [mkTrade, fwdReturn, hlen, h50]
  norm_num [h55]

/-- C7: a history of fewer than 70 bars yields the explicit zero-valued
result, and a history of exactly 70 bars with the default 252-bar lookback
has the empty scan range [50, 50), hence zero signals. -/
theorem backtest_insufficient_history
    (closes : List ℚ) (symbol combo : String) (lookback : Nat)
    (inputsAt : Nat → Except Unit ComboInputs) :
    (closes.length < 70 →
      backtestCombo closes symbol combo lookback inputsAt =
        emptyResult combo symbol) ∧
    (closes.length = 70 →
      (backtestCombo closes symbol combo 252 inputsAt).totalSignals = 0) := by
  constructor
  · intro h
    unfold backtestCombo
    rw [if_pos h]
  · intro h
    unfold backtestCombo
    rw [h]
    norm_num [scanIndices, emptyResult]

/-- C7 witness: a 60-bar constant history returns the zero result, and a
70-bar constant history with lookback 252 records zero signals. -/
theorem backtest_insufficient_history_witness :
    ((List.replicate 60 (1 : ℚ)).length < 70 ∧
      backtestCombo (List.replicate 60 (1 : ℚ)) "SYM" "Breakout" 252
        (fun _ => Except.error ()) = emptyResult "Breakout" "SYM") ∧
    ((List.replicate 70 (1 : ℚ)).length = 70 ∧
      (backtestCombo (List.replicate 70 (1 : ℚ)) "SYM" "Breakout" 252
        (fun _ => Except.error ())).totalSignals = 0) :=
  ⟨⟨by simp, (backtest_insufficient_history (List.replicate 60 (1 : ℚ))
      "SYM" "Breakout" 252 (fun _ => Except.error ())).1 (by simp)⟩,
   ⟨by simp, (backtest_insufficient_history (List.replicate 70 (1 : ℚ))
      "SYM" "Breakout" 252 (fun _ => Except.error ())).2 (by simp)⟩⟩

/-- C10: the per-window archetype predicate is a total boolean function:
false on windows shorter than 50 bars, false when the collaborators raised
(the error case), and false on unrecognized archetype names. -/
theorem detect_combo_signal_total
    (nbars : Nat) (inputs : Except Unit ComboInputs) (combo : String) :
    (nbars < 50 → detectComboSignal nbars inputs combo = false) ∧
    (∀ e : Unit, inputs = Except.error e →
      detectComboSignal nbars inputs combo = false) ∧
    (combo ∉ ["Trend Following", "Mean Reversion", "Breakout", "Sell/Short"] →
      detectComboSignal nbars inputs combo = false) := by
  refine ⟨fun h => ?_, fun e he => ?_, fun h => ?_⟩
  · unfold detectComboSignal
    rw [if_pos h]
  · subst he
    unfold detectComboSignal
    split
    · rfl
    · rfl
  · unfold detectComboSignal
    split
    · rfl
    · split
      · rfl
      · simp only [List.mem_cons, List.not_mem_nil, or_false] at h
        push_neg at h
        obtain ⟨h1, h2, h3, h4⟩ := h
        simp [h1, h2, h3, h4]

/-- C10 witness: a short window, a raised collaborator, and an unknown
archetype name each evaluate to false. -/
theorem detect_combo_signal_total_witness :
    detectComboSignal 10 (Except.error ()) "Nothing" = false ∧
    detectComboSignal 60 (Except.error ()) "Breakout" = false ∧
    detectComboSignal 60 (Except.ok ssInputs) "Nothing" = false :=
  ⟨(detect_combo_signal_total 10 (Except.error ()) "Nothing").1 (by decide),
   (detect_combo_signal_total 60 (Except.error ()) "Breakout").2.1 () rfl,
   (detect_combo_signal_total 60 (Except.ok ssInputs) "Nothing").2.2
     (by decide)⟩

/-- Score component of the first-maximal selection used by the
recommender. -/
theorem comboBestSnd (a b c d : Nat) :
    (if a ≥ b ∧ a ≥ c ∧ a ≥ d then (("Trend Following" : String), a)
     else if b ≥ c ∧ b ≥ d then ("Mean Reversion", b)
     else if c ≥ d then ("Breakout", c)
     else ("Sell/Short", d)).2 = max (max (max a b) c) d := by
  split_ifs with h1 h2 h3
  · show a = max (max (max a b) c) d
    omega
  · show b = max (max (max a b) c) d
    omega
  · show c = max (max (max a b) c) d
    omega
  · show d = max (max (max a b) c) d
    omega

/-- Name component of the first-maximal selection used by the
recommender. -/
theorem comboBestFst (a b c d : Nat) :
    (if a ≥ b ∧ a ≥ c ∧ a ≥ d then (("Trend Following" : String), a)
     else if b ≥ c ∧ b ≥ d then ("Mean Reversion", b)
     else if c ≥ d then ("Breakout", c)
     else ("Sell/Short", d)).1 =
    (if a = max (max (max a b) c) d then "Trend Following"
     else if b = max (max (max a b) c) d then "Mean Reversion"
     else if c = max (max (max a b) c) d then "Breakout"
     else "Sell/Short") := by
  split_ifs <;> first | rfl | omega

/-- C3: the recommender reports the maximum checklist score; below 2 it
returns No clear setup, otherwise the first-evaluated archetype attaining
the maximum in the fixed order Trend Following, Mean Reversion, Breakout,
Sell/Short. -/
theorem recommend_combo_selection (signals : SignalDict)
    (patterns : List (String × String)) (isBreakout isBreakdown : Bool) :
    (recommendCombo signals patterns isBreakout isBreakdown).matchScore =
      max (max (max (scoreTrendFollowing signals patterns)
        (scoreMeanReversion signals patterns))
        (scoreBreakout signals isBreakout))
        (scoreSellShort signals patterns) ∧
    (max (max (max (scoreTrendFollowing signals patterns)
        (scoreMeanReversion signals patterns))
        (scoreBreakout signals isBreakout))
        (scoreSellShort signals patterns) < 2 →
      (recommendCombo signals patterns isBreakout isBreakdown).combo =
        "No clear setup") ∧
    (2 ≤ max (max (max (scoreTrendFollowing signals patterns)
        (scoreMeanReversion signals patterns))
        (scoreBreakout signals isBreakout))
        (scoreSellShort signals patterns) →
      (recommendCombo signals patterns isBreakout isBreakdown).combo =
        (if scoreTrendFollowing signals patterns =
            max (max (max (scoreTrendFollowing signals patterns)
              (scoreMeanReversion signals patterns))
              (scoreBreakout signals isBreakout))
              (scoreSellShort signals patterns)
         then "Trend Following"
         else if scoreMeanReversion signals patterns =
            max (max (max (scoreTrendFollowing signals patterns)
              (scoreMeanReversion signals patterns))
              (scoreBreakout signals isBreakout))
              (scoreSellShort signals patterns)
         then "Mean Reversion"
         else if scoreBreakout signals isBreakout =
            max (max (max (scoreTrendFollowing signals patterns)
              (scoreMeanReversion signals patterns))
              (scoreBreakout signals isBreakout))
              (scoreSellShort signals patterns)
         then "Breakout"
         else "Sell/Short")) := by
  unfold recommendCombo
  generalize scoreTrendFollowing signals patterns = a
  generalize scoreMeanReversion signals patterns = b
  generalize scoreBreakout signals isBreakout = c
  generalize scoreSellShort signals patterns = d
  simp only [apply_ite ComboRecommendation.matchScore,
    apply_ite ComboRecommendation.combo]
  rw [comboBestSnd a b c d, ite_self]
  refine ⟨rfl, fun h => ?_, fun h => ?_⟩
  · rw [if_pos h]
  · rw [if_neg (by omega)]
    exact comboBestFst a b c d

/-- C3 witness: an all-false checklist has winning score 0 and yields No
clear setup, while the overbought-at-upper-band checklist scores 2 for
Sell/Short alone and selects it. -/
theorem recommend_combo_selection_witness :
    (max (max (max
          (scoreTrendFollowing ⟨"", "", "", "", "", ""⟩ [])
          (scoreMeanReversion ⟨"", "", "", "", "", ""⟩ []))
        (scoreBreakout ⟨"", "", "", "", "", ""⟩ false))
        (scoreSellShort ⟨"", "", "", "", "", ""⟩ []) < 2 ∧
      (recommendCombo ⟨"", "", "", "", "", ""⟩ [] false false).combo =
        "No clear setup") ∧
    (2 ≤ max (max (max (scoreTrendFollowing ssSignals [])
          (scoreMeanReversion ssSignals []))
        (scoreBreakout ssSignals false))
        (scoreSellShort ssSignals []) ∧
      (recommendCombo ssSignals [] false false).combo = "Sell/Short") := by
  refine ⟨⟨by decide,
    (recommend_combo_selection ⟨"", "", "", "", "", ""⟩ [] false false).2.1
      (by decide)⟩, by decide, ?_⟩
  rw [(recommend_combo_selection ssSignals [] false false).2.2 (by decide)]
  decide

/-- C6: when the volume signal reads High, the volume point is credited to
the side that strictly leads after the first five criterion families, and
to neither side on an exact tie; it is evaluated before the breakout and
candlestick contributions. -/
theorem score_volume_credit (inp : ScoreInput)
    (h : strContains inp.signals.volume "High" = true) :
    (scoreStock inp).bullishScore =
      (score5 inp).1 +
      (if (score5 inp).1 > (score5 inp).2 then 1 else 0) +
      (if inp.isBreakout then 2 else 0) +
      (if (bullPatternsOf inp.patterns).isEmpty then 0
       else min (bullPatternsOf inp.patterns).length 2) ∧
    (scoreStock inp).bearishScore =
      (score5 inp).2 +
      (if (score5 inp).2 > (score5 inp).1 then 1 else 0) +
      (if inp.isBreakout then 0 else if inp.isBreakdown then 2 else 0) +
      (if (bearPatternsOf inp.patterns).isEmpty then 0
       else min (bearPatternsOf inp.patterns).length 2) := by
  simp only [scoreStock, h, eq_self_iff_true, if_true]
  split_ifs <;> (try dsimp only) <;> omega

/-- C6 witness: on inp6 the first five families give (2, 0), the volume
point goes to the bullish side, and the final score is (3, 0). -/
theorem score_volume_credit_witness :
    strContains inp6.signals.volume "High" = true ∧
    (score5 inp6).1 = 2 ∧ (score5 inp6).2 = 0 ∧
    ((scoreStock inp6).bullishScore =
      (score5 inp6).1 +
      (if (score5 inp6).1 > (score5 inp6).2 then 1 else 0) +
      (if inp6.isBreakout then 2 else 0) +
      (if (bullPatternsOf inp6.patterns).isEmpty then 0
       else min (bullPatternsOf inp6.patterns).length 2)) ∧
    (scoreStock inp6).bullishScore = 3 :=
  ⟨by decide, by decide, by decide,
   (score_volume_credit inp6 (by decide)).1, by decide⟩

/-- C8 (amended): the alert loop skips symbols with fewer than 50 bars —
filtering them away changes nothing — rather than failing on them. -/
theorem generate_alerts_skips_short (data : List AlertStockInput)
    (minScore : Nat) :
    generateAlertsRows data minScore =
      generateAlertsRows
        (data.filter (fun stk => decide (50 ≤ stk.nbars))) minScore := by
  induction data with
  | nil => rfl
  | cons stk rest ih =>
    by_cases h : stk.nbars < 50
    · have h2 : decide (50 ≤ stk.nbars) = false := by
        simp only [decide_eq_false_iff_not]; omega
      simp only [generateAlertsRows, List.filter_cons, h2, if_pos h,
        Bool.false_eq_true, if_false]
      exact ih
    · have h2 : decide (50 ≤ stk.nbars) = true := by
        simp only [decide_eq_true_eq]; omega
      simp only [generateAlertsRows, List.filter_cons, h2, if_neg h,
        if_true]
      rw [ih]

/-- C8 counterexample: on a 30-bar history the scorer happily evaluates
its criteria and returns an ordinary score of (3, 0) — there is no
InsufficientHistory failure — while the alert loop silently emits no row
for the symbol even with min_score 1. -/
theorem scorer_short_history_counterexample :
    shortInput.nbars = 30 ∧
    (scoreStock shortInput.scoreInput).bullishScore = 3 ∧
    (scoreStock shortInput.scoreInput).bearishScore = 0 ∧
    generateAlertsRows [shortInput] 1 = [] := by
  refine ⟨rfl, by decide, by decide, ?_⟩
  simp [generateAlertsRows, shortInput]

/-- C1: once the warm-up guard passes (all EMAs present and EMA20
positive), the entry check fires exactly when both required conditions
hold and at least 3 of the 5 conditions are met; strength is Strong at 4
or more, Moderate at exactly 3, and Weak forces has_signal false — for
both the bullish and the bearish variant. -/
theorem trend_entry_signal_rule (s : Snapshot)
    (patterns : List (String × String)) (e20 e50 e200 : ℚ)
    (h20 : s.ema20 = some e20) (h50 : s.ema50 = some e50)
    (h200 : s.ema200 = some e200) (hpos : 0 < e20) :
    ((checkTrendFollowingEntry s patterns).hasSignal =
      (bullEmaAligned s && bullPullbackOk s &&
        decide (metCountBull s patterns ≥ 3))) ∧
    ((checkTrendFollowingEntry s patterns).strength = "Strong" ↔
      metCountBull s patterns ≥ 4) ∧
    ((checkTrendFollowingEntry s patterns).strength = "Moderate" ↔
      metCountBull s patterns = 3) ∧
    ((checkTrendFollowingEntry s patterns).strength = "Weak" →
      (checkTrendFollowingEntry s patterns).hasSignal = false) ∧
    ((checkBearishTrendFollowingEntry s patterns).hasSignal =
      (bearEmaAligned s && bearPullbackOk s &&
        decide (metCountBear s patterns ≥ 3))) ∧
    ((checkBearishTrendFollowingEntry s patterns).strength = "Strong" ↔
      metCountBear s patterns ≥ 4) ∧
    ((checkBearishTrendFollowingEntry s patterns).strength = "Moderate" ↔
      metCountBear s patterns = 3) ∧
    ((checkBearishTrendFollowingEntry s patterns).strength = "Weak" →
      (checkBearishTrendFollowingEntry s patterns).hasSignal = false) := by
  have hneg : ¬(e20 ≤ 0) := not_le.mpr hpos
  unfold checkTrendFollowingEntry checkBearishTrendFollowingEntry
  rw [h20, h50, h200]
  simp only [if_neg hneg]
  refine ⟨by trivial, ?_, ?_, ?_, by trivial, ?_, ?_, ?_⟩ <;>
    split_ifs <;> simp_all <;> omega

/-- C1 witness: on the pullback snapshot sW4 the rule is instantiated at
a positive EMA20, and the bullish check fires with strength Strong. -/
theorem trend_entry_signal_rule_witness :
    sW4.ema20 = some 100 ∧ sW4.ema50 = some 95 ∧ sW4.ema200 = some 90 ∧
    (0 : ℚ) < 100 ∧
    ((checkTrendFollowingEntry sW4 []).hasSignal =
      (bullEmaAligned sW4 && bullPullbackOk sW4 &&
        decide (metCountBull sW4 [] ≥ 3))) ∧
    (checkTrendFollowingEntry sW4 []).hasSignal = true ∧
    (checkTrendFollowingEntry sW4 []).strength = "Strong" := by
  have h := trend_entry_signal_rule sW4 [] 100 95 90 rfl rfl rfl
    (by norm_num)
  have hcount : metCountBull sW4 [] = 4 := by
    norm_num [metCountBull, bullEmaAligned, bullPullbackOk, bullCandleOk,
      volumeOk, adxOk, bodyPct, bullPatternsOf, sW4,
      ENTRY_EMA_PULLBACK_PCT, ENTRY_ADX_MIN, ENTRY_VOLUME_RATIO_PREFERRED]
  have haligned : bullEmaAligned sW4 = true := by
    norm_num [bullEmaAligned, sW4]
  have hpull : bullPullbackOk sW4 = true := by
    norm_num [bullPullbackOk, sW4, ENTRY_EMA_PULLBACK_PCT]
  refine ⟨rfl, rfl, rfl, by norm_num, h.1, ?_, h.2.1.mpr (by omega)⟩
  rw [h.1, haligned, hpull, hcount]
  decide

/-- Priced levels produced by the bullish entry check once the warm-up
guard passes. -/
theorem checkTF_fields (s : Snapshot) (patterns : List (String × String))
    (e20 e50 e200 : ℚ) (h20 : s.ema20 = some e20) (h50 : s.ema50 = some e50)
    (h200 : s.ema200 = some e200) (hpos : 0 < e20) :
    (checkTrendFollowingEntry s patterns).stopLoss =
      min (match s.atr with
        | some a => if 0 < a then s.close - 3/2 * a else s.close * (97/100)
        | none => s.close * (97/100)) s.low ∧
    (checkTrendFollowingEntry s patterns).target1 =
      s.close + 2 * (s.close -
        (checkTrendFollowingEntry s patterns).stopLoss) ∧
    (checkTrendFollowingEntry s patterns).target2 =
      s.close + 3 * (s.close -
        (checkTrendFollowingEntry s patterns).stopLoss) := by
  unfold checkTrendFollowingEntry
  rw [h20, h50, h200]
  simp only [if_neg (not_le.mpr hpos)]
  exact ⟨by trivial, by trivial, by trivial⟩

/-- Priced levels produced by the bearish entry check once the warm-up
guard passes. -/
theorem checkBear_fields (s : Snapshot) (patterns : List (String × String))
    (e20 e50 e200 : ℚ) (h20 : s.ema20 = some e20) (h50 : s.ema50 = some e50)
    (h200 : s.ema200 = some e200) (hpos : 0 < e20) :
    (checkBearishTrendFollowingEntry s patterns).stopLoss =
      max (match s.atr with
        | some a => if 0 < a then s.close + 3/2 * a else s.close * (103/100)
        | none => s.close * (103/100)) s.high ∧
    (checkBearishTrendFollowingEntry s patterns).target1 =
      s.close - 2 * ((checkBearishTrendFollowingEntry s patterns).stopLoss -
        s.close) ∧
    (checkBearishTrendFollowingEntry s patterns).target2 =
      s.close - 3 * ((checkBearishTrendFollowingEntry s patterns).stopLoss -
        s.close) := by
  unfold checkBearishTrendFollowingEntry
  rw [h20, h50, h200]
  simp only [if_neg (not_le.mpr hpos)]
  exact ⟨by trivial, by trivial, by trivial⟩

/-- C4 (amended): with a positive ATR the stop is the tighter of
entry ∓ 1.5 ATR and the bar extreme, hence never looser than the bar;
without a usable ATR the 3 percent offset replaces only the ATR leg and
the stop is still the tighter of that level and the bar extreme (the
fallback target equations assume a nonnegative entry price); targets are
entry ± 2 and ± 3 times the risk. -/
theorem trend_entry_stop_targets (s : Snapshot)
    (patterns : List (String × String)) (e20 e50 e200 : ℚ)
    (h20 : s.ema20 = some e20) (h50 : s.ema50 = some e50)
    (h200 : s.ema200 = some e200) (hpos : 0 < e20) :
    (∀ a : ℚ, s.atr = some a → 0 < a →
      (checkTrendFollowingEntry s patterns).stopLoss =
        min (s.close - 3/2 * a) s.low ∧
      (checkTrendFollowingEntry s patterns).stopLoss ≤ s.low ∧
      (checkTrendFollowingEntry s patterns).target1 = s.close +
        2 * |s.close - (checkTrendFollowingEntry s patterns).stopLoss| ∧
      (checkTrendFollowingEntry s patterns).target2 = s.close +
        3 * |s.close - (checkTrendFollowingEntry s patterns).stopLoss|) ∧
    ((s.atr = none ∨ ∃ a : ℚ, s.atr = some a ∧ a ≤ 0) →
      (checkTrendFollowingEntry s patterns).stopLoss =
        min (s.close * (97/100)) s.low ∧
      (checkTrendFollowingEntry s patterns).stopLoss ≤ s.low ∧
      (0 ≤ s.close →
        (checkTrendFollowingEntry s patterns).target1 = s.close +
          2 * |s.close - (checkTrendFollowingEntry s patterns).stopLoss| ∧
        (checkTrendFollowingEntry s patterns).target2 = s.close +
          3 * |s.close - (checkTrendFollowingEntry s patterns).stopLoss|)) ∧
    (∀ a : ℚ, s.atr = some a → 0 < a →
      (checkBearishTrendFollowingEntry s patterns).stopLoss =
        max (s.close + 3/2 * a) s.high ∧
      s.high ≤ (checkBearishTrendFollowingEntry s patterns).stopLoss ∧
      (checkBearishTrendFollowingEntry s patterns).target1 = s.close -
        2 * |s.close -
          (checkBearishTrendFollowingEntry s patterns).stopLoss| ∧
      (checkBearishTrendFollowingEntry s patterns).target2 = s.close -
        3 * |s.close -
          (checkBearishTrendFollowingEntry s patterns).stopLoss|) ∧
    ((s.atr = none ∨ ∃ a : ℚ, s.atr = some a ∧ a ≤ 0) →
      (checkBearishTrendFollowingEntry s patterns).stopLoss =
        max (s.close * (103/100)) s.high ∧
      s.high ≤ (checkBearishTrendFollowingEntry s patterns).stopLoss ∧
      (0 ≤ s.close →
        (checkBearishTrendFollowingEntry s patterns).target1 = s.close -
          2 * |s.close -
            (checkBearishTrendFollowingEntry s patterns).stopLoss| ∧
        (checkBearishTrendFollowingEntry s patterns).target2 = s.close -
          3 * |s.close -
            (checkBearishTrendFollowingEntry s patterns).stopLoss|)) := by
  obtain ⟨hs, h1, h2⟩ :=
    checkTF_fields s patterns e20 e50 e200 h20 h50 h200 hpos
  obtain ⟨hsR, h1R, h2R⟩ :=
    checkBear_fields s patterns e20 e50 e200 h20 h50 h200 hpos
  refine ⟨fun a ha hapos => ?_, fun hfb => ?_,
    fun a ha hapos => ?_, fun hfb => ?_⟩
  · rw [ha] at hs
    dsimp only at hs
    rw [if_pos hapos] at hs
    have hcl : (checkTrendFollowingEntry s patterns).stopLoss ≤ s.close := by
      rw [hs]
      have := min_le_left (s.close - 3/2 * a) s.low
      linarith
    have habs : |s.close - (checkTrendFollowingEntry s patterns).stopLoss| =
        s.close - (checkTrendFollowingEntry s patterns).stopLoss :=
      abs_of_nonneg (by linarith)
    exact ⟨hs, hs ▸ min_le_right _ _,
      by rw [habs]; exact h1, by rw [habs]; exact h2⟩
  · have hsa : (match s.atr with
        | some a => if 0 < a then s.close - 3/2 * a else s.close * (97/100)
        | none => s.close * (97/100)) = s.close * (97/100) := by
      rcases hfb with hnone | ⟨a, ha, hle0⟩
      · rw [hnone]
      · rw [ha]
        dsimp only
        rw [if_neg (not_lt.mpr hle0)]
    rw [hsa] at hs
    refine ⟨hs, hs ▸ min_le_right _ _, fun hc => ?_⟩
    have hcl : (checkTrendFollowingEntry s patterns).stopLoss ≤ s.close := by
      rw [hs]
      have := min_le_left (s.close * (97/100)) s.low
      linarith
    have habs : |s.close - (checkTrendFollowingEntry s patterns).stopLoss| =
        s.close - (checkTrendFollowingEntry s patterns).stopLoss :=
      abs_of_nonneg (by linarith)
    exact ⟨by rw [habs]; exact h1, by rw [habs]; exact h2⟩
  · rw [ha] at hsR
    dsimp only at hsR
    rw [if_pos hapos] at hsR
    have hcl : s.close ≤
        (checkBearishTrendFollowingEntry s patterns).stopLoss := by
      rw [hsR]
      have := le_max_left (s.close + 3/2 * a) s.high
      linarith
    have habs : |s.close -
        (checkBearishTrendFollowingEntry s patterns).stopLoss| =
        (checkBearishTrendFollowingEntry s patterns).stopLoss - s.close := by
      rw [abs_sub_comm]
      exact abs_of_nonneg (by linarith)
    exact ⟨hsR, hsR ▸ le_max_right _ _,
      by rw [habs]; exact h1R, by rw [habs]; exact h2R⟩
  · have hsa : (match s.atr with
        | some a => if 0 < a then s.close + 3/2 * a else s.close * (103/100)
        | none => s.close * (103/100)) = s.close * (103/100) := by
      rcases hfb with hnone | ⟨a, ha, hle0⟩
      · rw [hnone]
      · rw [ha]
        dsimp only
        rw [if_neg (not_lt.mpr hle0)]
    rw [hsa] at hsR
    refine ⟨hsR, hsR ▸ le_max_right _ _, fun hc => ?_⟩
    have hcl : s.close ≤
        (checkBearishTrendFollowingEntry s patterns).stopLoss := by
      rw [hsR]
      have := le_max_left (s.close * (103/100)) s.high
      linarith
    have habs : |s.close -
        (checkBearishTrendFollowingEntry s patterns).stopLoss| =
        (checkBearishTrendFollowingEntry s patterns).stopLoss - s.close := by
      rw [abs_sub_comm]
      exact abs_of_nonneg (by linarith)
    exact ⟨by rw [habs]; exact h1R, by rw [habs]; exact h2R⟩

/-- C4 counterexample: with ATR unavailable on the s4cx bar, the stop is
90 — the bar low — not the 3 percent offset level 97 that a literal
reading of the fallback clause predicts. -/
theorem trend_entry_stop_fallback_counterexample :
    s4cx.atr = none ∧
    (checkTrendFollowingEntry s4cx []).stopLoss = 90 ∧
    s4cx.close - 3/100 * s4cx.close = 97 ∧ ((90 : ℚ) ≠ 97) := by
  refine ⟨rfl, ?_, by norm_num [s4cx], by norm_num⟩
  have h := checkTF_fields s4cx [] 95 90 85 rfl rfl rfl (by norm_num)
  rw [h.1]
  norm_num [s4cx, min_def]

/-- C4 witness: on the sW4 bar (ATR 2, close 102, low 95) the stop is
the tighter level 95 and target 1 is 116 = 102 + 2 times the risk 7. -/
theorem trend_entry_stop_targets_witness :
    sW4.ema20 = some 100 ∧ (0 : ℚ) < 100 ∧ sW4.atr = some 2 ∧
    (0 : ℚ) < 2 ∧
    (checkTrendFollowingEntry sW4 []).stopLoss =
      min (sW4.close - 3/2 * 2) sW4.low ∧
    (checkTrendFollowingEntry sW4 []).stopLoss ≤ sW4.low ∧
    (checkTrendFollowingEntry sW4 []).stopLoss = 95 ∧
    (checkTrendFollowingEntry sW4 []).target1 = 116 ∧
    (checkTrendFollowingEntry s4cx []).stopLoss =
      min (s4cx.close * (97/100)) s4cx.low := by
  have h := (trend_entry_stop_targets sW4 [] 100 95 90 rfl rfl rfl
    (by norm_num)).1 2 rfl (by norm_num)
  have h95 : (checkTrendFollowingEntry sW4 []).stopLoss = 95 := by
    rw [h.1]
    norm_num [sW4, min_def]
  refine ⟨rfl, by norm_num, rfl, by norm_num, h.1, h.2.1, h95, ?_, ?_⟩
  · rw [h.2.2.1, h95]
    rw [show sW4.close - (95 : ℚ) = 7 by norm_num [sW4]]
    rw [abs_of_nonneg (by norm_num : (0 : ℚ) ≤ 7)]
    norm_num [sW4]
  · exact ((trend_entry_stop_targets s4cx [] 95 90 85 rfl rfl rfl
      (by norm_num)).2.1 (Or.inl rfl)).1

/-- A firing bullish entry signal requires the bullish EMA alignment. -/
theorem bull_hasSignal_emaAligned (s : Snapshot)
    (patterns : List (String × String))
    (h : (checkTrendFollowingEntry s patterns).hasSignal = true) :
    bullEmaAligned s = true := by
  rcases hm20 : s.ema20 with _ | e20 <;>
    rcases hm50 : s.ema50 with _ | e50 <;>
    rcases hm200 : s.ema200 with _ | e200 <;>
    unfold checkTrendFollowingEntry at h <;>
    rw [hm20, hm50, hm200] at h <;>
    dsimp only at h <;>
    try simp [noSignal] at h
  by_cases hle : e20 ≤ 0
  · rw [if_pos hle] at h
    simp [noSignal] at h
  · rw [if_neg hle] at h
    dsimp only at h
    simp only [Bool.and_eq_true] at h
    exact h.1.1

/-- A firing bearish entry signal requires the bearish EMA alignment. -/
theorem bear_hasSignal_emaAligned (s : Snapshot)
    (patterns : List (String × String))
    (h : (checkBearishTrendFollowingEntry s patterns).hasSignal = true) :
    bearEmaAligned s = true := by
  rcases hm20 : s.ema20 with _ | e20 <;>
    rcases hm50 : s.ema50 with _ | e50 <;>
    rcases hm200 : s.ema200 with _ | e200 <;>
    unfold checkBearishTrendFollowingEntry at h <;>
    rw [hm20, hm50, hm200] at h <;>
    dsimp only at h <;>
    try simp [noSignal] at h
  by_cases hle : e20 ≤ 0
  · rw [if_pos hle] at h
    simp [noSignal] at h
  · rw [if_neg hle] at h
    dsimp only at h
    simp only [Bool.and_eq_true] at h
    exact h.1.1

/-- The bullish and bearish entry checks cannot both fire on the same
bar: their required EMA alignments are strict and mutually exclusive. -/
theorem not_both_directions (s : Snapshot)
    (patterns : List (String × String)) :
    ¬((checkTrendFollowingEntry s patterns).hasSignal = true ∧
      (checkBearishTrendFollowingEntry s patterns).hasSignal = true) := by
  rintro ⟨hb, hr⟩
  have h1 := bull_hasSignal_emaAligned s patterns hb
  have h2 := bear_hasSignal_emaAligned s patterns hr
  rcases hm20 : s.ema20 with _ | e20 <;>
    rcases hm50 : s.ema50 with _ | e50 <;>
    rcases hm200 : s.ema200 with _ | e200 <;>
    simp [bullEmaAligned, hm20, hm50, hm200, decide_eq_true_eq] at h1
  simp [bearEmaAligned, hm20, hm50, hm200, decide_eq_true_eq] at h2
  linarith [h1.1.1, h2.2]

/-- Length bound for the two-sided conditional append. -/
theorem append_ite_length (b r : EntrySignal)
    (h : ¬(b.hasSignal = true ∧ r.hasSignal = true)) :
    ((if b.hasSignal then [b] else []) ++
      (if r.hasSignal then [r] else [])).length ≤ 1 := by
  cases hb : b.hasSignal
  · cases hr : r.hasSignal <;> simp [hb, hr]
  · cases hr : r.hasSignal
    · simp [hb, hr]
    · exact absurd ⟨hb, hr⟩ h

/-- The entry-signal list has at most one element. -/
theorem detectEntrySignal_length_le_one (nbars : Nat) (s : Snapshot)
    (patterns : List (String × String)) (strategy : String) :
    (detectEntrySignal nbars s patterns strategy).length ≤ 1 := by
  unfold detectEntrySignal
  by_cases hn : nbars < 50
  · rw [if_pos hn]
    simp
  · rw [if_neg hn]
    by_cases hs : (strategy == "trend_following") = true
    · rw [if_pos hs]
      exact append_ite_length _ _ (not_both_directions s patterns)
    · rw [if_neg hs]
      simp

/-- C9 (amended): the detector returns 0 or 1 signal records; a 2-record
result is impossible because the two directions exclude each other. -/
theorem detect_entry_signal_zero_or_one (nbars : Nat) (s : Snapshot)
    (patterns : List (String × String)) (strategy : String) :
    (detectEntrySignal nbars s patterns strategy).length = 0 ∨
    (detectEntrySignal nbars s patterns strategy).length = 1 := by
  have h := detectEntrySignal_length_le_one nbars s patterns strategy
  omega

/-- C9 counterexample: no input makes the detector return two signals,
refuting the claimed same-bar bullish-plus-bearish case. -/
theorem detect_entry_signal_never_two :
    ¬∃ (nbars : Nat) (s : Snapshot) (patterns : List (String × String))
        (strategy : String),
        (detectEntrySignal nbars s patterns strategy).length = 2 := by
  rintro ⟨n, s, p, st, h⟩
  have h2 := detectEntrySignal_length_le_one n s p st
  omega

end MarketScreener
